import Mathlib

set_option maxRecDepth 4096

/-!
Verification of the conversation core of the chattest client.

The development shallowly embeds the three core components of the source:

* the Remote Inference Gateway (`src/src/lib/db.ts`, the `APIService` part:
  `normalizeHostname`, `fetchModels`, `sendChatMessage`);
* the Conversation Orchestrator (the `App` component in `src/unnamed/part_000`:
  `handleSendMessage`, `handleNewConversation`, `handleDeleteConversation`,
  `handleSaveConfig`).

JavaScript strings are embedded as Lean `String`; the JavaScript string
primitives the source uses are given explicit list-based definitions so that
every definition is executable by the kernel.  JSON values flowing through the
Gateway are embedded as the inductive `JValue`, with `JValue.undefined` standing
for the JavaScript `undefined` produced by a missing field.  Asynchronous
collaborators (the Gateway, the Store, `Date.now`, file reads) are passed in as
explicit stubs, and a rejected promise that the source would let escape is an
`Except.error` result.
-/

namespace ChatTest

/-- JavaScript `s.startsWith(p)`. -/
def strStartsWith (s p : String) : Bool := p.data.isPrefixOf s.data

/-- JavaScript `s.endsWith(p)`. -/
def strEndsWith (s p : String) : Bool := p.data.isSuffixOf s.data

/-- JavaScript `s.trim()`: drop whitespace from both ends. -/
def strTrim (s : String) : String :=
  ⟨((s.data.dropWhile Char.isWhitespace).reverse.dropWhile Char.isWhitespace).reverse⟩

/-- JavaScript `s.slice(0, n)` (the source truncates titles with it). -/
def strTake (s : String) (n : Nat) : String := ⟨s.data.take n⟩

/-- JavaScript `s.length` (character count; the sources only ever measure
plain text). -/
def strLength (s : String) : Nat := s.data.length

/-- Remove the last `n` characters of `s`. -/
def strDropRight (s : String) (n : Nat) : String := ⟨s.data.take (s.data.length - n)⟩

/-- JavaScript `array.slice(-n)`: the last `n` elements, or the whole array
when it has fewer than `n`. -/
def sliceLast (n : Nat) (l : List α) : List α := l.drop (l.length - n)

/-- JSON-ish runtime values flowing through the Gateway response handling.
`undefined` stands for the JavaScript `undefined` returned by a missing field. -/
inductive JValue where
  | undefined : JValue
  | null : JValue
  | bool : Bool → JValue
  | num : Int → JValue
  | str : String → JValue
  | arr : List JValue → JValue
  | obj : List (String × JValue) → JValue

/-- JavaScript truthiness of the values above: `undefined`, `null`, `false`,
`0` and the empty string are falsy; arrays and objects, even empty ones, are
truthy. -/
def truthy : JValue → Bool
  | .undefined => false
  | .null => false
  | .bool b => b
  | .num n => n != 0
  | .str s => s != ""
  | .arr _ => true
  | .obj _ => true

/-- JavaScript member access `v.k` for the object case: the named field, or
`undefined` when absent.  On non-objects the access yields `undefined`
(call sites below never reach this with `null`/`undefined` receivers except
where the embedding models the resulting TypeError explicitly). -/
def jfield : JValue → String → JValue
  | .obj fields, k => (((fields.find? (fun p => p.1 == k)).map Prod.snd).getD .undefined)
  | _, _ => .undefined

/-- JavaScript `v[0]`: first array element, the field named `0` on objects,
the first character of a non-empty string, otherwise `undefined`. -/
def jindex0 : JValue → JValue
  | .arr l => l.head?.getD .undefined
  | .obj fields => jfield (.obj fields) "0"
  | .str s => match s.data with
    | [] => .undefined
    | c :: _ => .str ⟨[c]⟩
  | _ => .undefined

/-- JavaScript optional chaining `v?.k`: `undefined` when `v` is `undefined`
or `null`, otherwise plain member access. -/
def optChain (v : JValue) (k : String) : JValue :=
  match v with
  | .undefined => .undefined
  | .null => .undefined
  | _ => jfield v k

/-- JavaScript `a || b`. -/
def jsOr (a b : JValue) : JValue := if truthy a then a else b

/-- JavaScript `a ?? b` (nullish coalescing).  The specification words the
`fetchModels` mapping with `??`; the source uses `||`. -/
def jsNullish (a b : JValue) : JValue :=
  match a with
  | .undefined => b
  | .null => b
  | _ => a

/-- Is the value a JSON array (`Array.isArray`)? -/
def isJArr : JValue → Bool
  | .arr _ => true
  | _ => false

/-- The elements of a JSON array value. -/
def jarrElems : JValue → List JValue
  | .arr l => l
  | _ => []

/-- An HTTP response as the Gateway code observes it: `ok` is `response.ok`
(status in the 2xx range), `statusText` and `bodyText` the status line and the
raw body text, and `body` the JSON value produced by `response.json()`. -/
structure HTTPResp where
  ok : Bool
  statusText : String
  bodyText : String
  body : JValue

/-- Source function `normalizeHostname` of `APIService`: trim, prefix
`https://` when the trimmed value starts with neither `http://` nor
`https://`, then delete one trailing slash (the regexp replace of a final
slash). -/
def normalizeHostname (hostname : String) : String :=
  let normalized := strTrim hostname
  let normalized :=
    if !strStartsWith normalized "http://" && !strStartsWith normalized "https://" then
      "https://" ++ normalized
    else normalized
  if strEndsWith normalized "/" then strDropRight normalized 1 else normalized

/-- Does the trimmed value carry an explicit scheme, in the sense of the
specification sentence about `normalize`? -/
def hasScheme (s : String) : Bool := strStartsWith s "http://" || strStartsWith s "https://"

/-- Strip exactly one trailing slash. -/
def stripOneTrailingSlash (s : String) : String :=
  if strEndsWith s "/" then strDropRight s 1 else s

/-- The normalization rule as the specification words it, independently of the
source: trim surrounding whitespace, prefix `https://` exactly when the
trimmed value lacks an explicit scheme, strip exactly one trailing slash. -/
def specNormalize (s : String) : String :=
  stripOneTrailingSlash (if hasScheme (strTrim s) then strTrim s else "https://" ++ strTrim s)

/-- Failures of `sendChatMessage`: a non-2xx response (carrying status text
and body text), a property access on a JSON `null` body, or a 2xx body
matching neither response dialect. -/
inductive ChatError where
  | requestFailed (statusText bodyText : String)
  | typeError (prop : String)
  | unexpectedFormat
deriving DecidableEq

/-- Source function `sendChatMessage` of `APIService`, response handling.
A non-2xx response throws with the status text and the body text; then the
code tries `data.choices && data.choices[0]?.message?.content`, then
`data.message?.content`, and otherwise throws the unexpected-format error.
When the parsed body is JSON `null`, the very first member access
(`data.choices`) throws a TypeError. -/
def sendChatMessage (resp : HTTPResp) : Except ChatError JValue :=
  if !resp.ok then
    .error (.requestFailed resp.statusText resp.bodyText)
  else
    match resp.body with
    | .null => .error (.typeError "choices")
    | .undefined => .error (.typeError "choices")
    | data =>
      let openai :=
        if truthy (jfield data "choices") then
          optChain (optChain (jindex0 (jfield data "choices")) "message") "content"
        else jfield data "choices"
      if truthy openai then .ok openai
      else
        let flat := optChain (jfield data "message") "content"
        if truthy flat then .ok flat
        else .error .unexpectedFormat

/-- The value of the conditional chain
`data.choices && data.choices[0]?.message?.content` of `sendChatMessage`. -/
def openaiChainValue (data : JValue) : JValue :=
  if truthy (jfield data "choices") then
    optChain (optChain (jindex0 (jfield data "choices")) "message") "content"
  else jfield data "choices"

/-- The value of `data.message?.content` of `sendChatMessage`. -/
def flatChainValue (data : JValue) : JValue :=
  optChain (jfield data "message") "content"

/-- The specification reading of matching the OpenAI-style
`choices[0].message.content` shape: the body holds a string at that path. -/
def openaiShapeContent (data : JValue) : Option String :=
  match optChain (optChain (jindex0 (jfield data "choices")) "message") "content" with
  | .str s => some s
  | _ => none

/-- A model entry as `fetchModels` returns it (field values are kept as JSON
values, since the source copies them without checking their type). -/
structure ModelEntry where
  id : JValue
  name : JValue

/-- Failures of `fetchModels`: a non-2xx response (carrying the status text)
or a property access on a JSON `null` body. -/
inductive ModelsError where
  | requestFailed (statusText : String)
  | typeError (prop : String)
deriving DecidableEq

/-- The dialect dispatch of `fetchModels` on a parsed 2xx body: the `data`
array dialect maps each element to the pair of its `id` and of `name || id`;
otherwise the `models` array dialect maps each element to the pair of
`model || name` and of its `name`; any other shape yields the empty list. -/
def fetchModelsBody (data : JValue) : List ModelEntry :=
  if truthy (jfield data "data") && isJArr (jfield data "data") then
    (jarrElems (jfield data "data")).map
      (fun m => ⟨jfield m "id", jsOr (jfield m "name") (jfield m "id")⟩)
  else if truthy (jfield data "models") && isJArr (jfield data "models") then
    (jarrElems (jfield data "models")).map
      (fun m => ⟨jsOr (jfield m "model") (jfield m "name"), jfield m "name"⟩)
  else []

/-- Source function `fetchModels` of `APIService`, response handling: a
non-2xx response throws with the status text; a JSON `null` body makes the
first member access throw; otherwise the dialect dispatch of
`fetchModelsBody` runs. -/
def fetchModels (resp : HTTPResp) : Except ModelsError (List ModelEntry) :=
  if !resp.ok then
    .error (.requestFailed resp.statusText)
  else
    match resp.body with
    | .null => .error (.typeError "data")
    | .undefined => .error (.typeError "data")
    | data => .ok (fetchModelsBody data)

/-- The mapping the specification prescribes for the `data` dialect of
`fetchModels`: the name is `name ?? id` with nullish coalescing, the id is
kept. -/
def specDataDialectMap (l : List JValue) : List ModelEntry :=
  l.map (fun m => ⟨jfield m "id", jsNullish (jfield m "name") (jfield m "id")⟩)

/-- An attachment as stored on a message (`db.ts`): name, MIME type, and the
base64 payload. -/
structure Attachment where
  name : String
  type : String
  data : String
deriving DecidableEq

/-- A message of a conversation (`db.ts`).  Roles in the source are the
string literals `user`, `assistant` and `system`. -/
structure Message where
  role : String
  content : String
  timestamp : Nat
  attachments : Option (List Attachment)
deriving DecidableEq

/-- The intersection type `APIConfig & { model: string }` of the source: the
global settings value, and also the shape of the `apiConfig` snapshot stored
on a `Conversation`. -/
structure APIConfigModel where
  hostname : String
  apiKey : Option String
  model : String
deriving DecidableEq

/-- A conversation record (`db.ts`). -/
structure Conversation where
  id : String
  title : String
  messages : List Message
  createdAt : Nat
  updatedAt : Nat
  apiConfig : APIConfigModel
deriving DecidableEq

/-- A chat message as sent upstream (`ChatMessage` of `apiService`): role and
content only. -/
structure ChatMessage where
  role : String
  content : String
deriving DecidableEq

/-- The request body handed to `sendChatMessage` by the Orchestrator. -/
structure ChatRequest where
  model : String
  messages : List ChatMessage
deriving DecidableEq

/-- An input `File` as the browser hands it to `handleSendMessage`, together
with the results of the two reads the code can perform on it
(`readFileAsText` and `readFileAsBase64`). -/
structure InputFile where
  name : String
  type : String
  text : String
  base64 : String
deriving DecidableEq

/-- The effectful collaborators of one `handleSendMessage` run: the Gateway
stub (`apiService.sendChatMessage`, taking the config and the request and
either resolving to the assistant text or rejecting with an error message),
the Store stub (`db.saveConversation`, indexed by 0-based call order within
the run), and `Date.now()`. -/
structure SendEnv where
  gateway : APIConfigModel → ChatRequest → Except String String
  store : Nat → Except String Unit
  now : Nat

/-- What a settled (non-rejected) `handleSendMessage` run did: the final
published conversation list, the successfully written Store records in call
order, and the Gateway invocation (config and request body) when one was
made. -/
structure SendOutcome where
  conversations : List Conversation
  upserts : List Conversation
  call : Option (APIConfigModel × ChatRequest)
deriving DecidableEq

/-- Source function `getCurrentConversation` of `App`:
`conversations.find(c => c.id === currentConversationId)`. -/
def getCurrentConversation (conversations : List Conversation)
    (currentId : Option String) : Option Conversation :=
  match currentId with
  | none => none
  | some cid => conversations.find? (fun c => c.id == cid)

/-- The user message `handleSendMessage` constructs: the typed text, the
current time, and the attachments base64-encoded for storage. -/
def mkUserMessage (env : SendEnv) (content : String)
    (attachments : Option (List InputFile)) : Message :=
  { role := "user", content := content, timestamp := env.now,
    attachments := attachments.map
      (List.map (fun f => { name := f.name, type := f.type, data := f.base64 })) }

/-- The optimistically updated conversation of `handleSendMessage`: the user
message appended, `updatedAt` refreshed, and on the very first message the
title derived from the content (50 characters, ellipsis when truncated). -/
def mkUpdatedConversation (env : SendEnv) (conversation : Conversation)
    (content : String) (attachments : Option (List InputFile)) : Conversation :=
  { conversation with
    messages := conversation.messages ++ [mkUserMessage env content attachments]
    updatedAt := env.now
    title :=
      if conversation.messages.length == 0 then
        strTake content 50 ++ (if strLength content > 50 then "..." else "")
      else conversation.title }

/-- The `messageContent` local of `handleSendMessage`: the typed text with
each text-typed attachment appended as a labeled block.  The source computes
this value and then never uses it. -/
def mkMessageContent (content : String) (attachments : Option (List InputFile)) : String :=
  match attachments with
  | some files =>
    if files.length > 0 then
      content ++ String.join
        ((files.filter (fun f => strStartsWith f.type "text/")).map
          (fun f => "\n\nFile: " ++ f.name ++ "\n" ++ f.text))
    else content
  | none => content

/-- The request body `handleSendMessage` builds: the global model and the
updated message log projected to role and content, cut to the last ten
entries (`.slice(-10)`). -/
def mkRequest (apiConfig : APIConfigModel) (updatedMessages : List Message) : ChatRequest :=
  { model := apiConfig.model
    messages := sliceLast 10 (updatedMessages.map (fun m => ⟨m.role, m.content⟩)) }

/-- The assistant message appended on success, with the Gateway response as
its content. -/
def mkAssistantMessage (env : SendEnv) (response : String) : Message :=
  { role := "assistant", content := response, timestamp := env.now, attachments := none }

/-- The assistant message the catch block appends: content `Error: ` plus the
failure message. -/
def mkErrorMessage (env : SendEnv) (e : String) : Message :=
  { role := "assistant", content := "Error: " ++ e, timestamp := env.now, attachments := none }

/-- The `updatedMessages` local of `handleSendMessage`: the previous log with
the new user message appended. -/
def updatedLog (env : SendEnv) (conversation : Conversation) (content : String)
    (attachments : Option (List InputFile)) : List Message :=
  conversation.messages ++ [mkUserMessage env content attachments]

/-- The `catch` block of `handleSendMessage`: append the `Error: ` assistant
message, save (this save is awaited outside any try, so its failure rejects
the run), republish.  `storeIdx` is the call index of this save. -/
def sendCatch (env : SendEnv) (conversationId : String)
    (updatedConversation : Conversation) (updatedMessages : List Message)
    (convs1 : List Conversation) (callInfo : Option (APIConfigModel × ChatRequest))
    (e : String) (storeIdx : Nat) : Except String SendOutcome :=
  match env.store storeIdx with
  | .error e2 => .error e2
  | .ok _ =>
    .ok { conversations := convs1.map (fun c =>
            if c.id == conversationId then
              { updatedConversation with
                messages := updatedMessages ++ [mkErrorMessage env e], updatedAt := env.now }
            else c)
          upserts := [updatedConversation,
            { updatedConversation with
              messages := updatedMessages ++ [mkErrorMessage env e], updatedAt := env.now }]
          call := callInfo }

/-- The body of `handleSendMessage` once the preconditions hold.  Mirrors the
source: build attachment data and the user message, optimistically save and
republish (a failure of this first save rejects), then inside the try block
compute the unused `messageContent`, build the request from
`updatedMessages`, call the Gateway with the global config, and on success
append the assistant message and save again.  The success-path save sits
inside the try block, so its failure is caught like a Gateway failure; the
catch block appends the `Error: ` message and saves once more. -/
def sendMessageBody (env : SendEnv) (conversations : List Conversation)
    (conversation : Conversation) (apiConfig : APIConfigModel)
    (content : String) (attachments : Option (List InputFile)) :
    Except String SendOutcome :=
  match env.store 0 with
  | .error e => .error e
  | .ok _ =>
    let _messageContent := mkMessageContent content attachments
    match env.gateway apiConfig (mkRequest apiConfig (updatedLog env conversation content attachments)) with
    | .error e =>
      sendCatch env conversation.id (mkUpdatedConversation env conversation content attachments)
        (updatedLog env conversation content attachments)
        (conversations.map (fun c =>
          if c.id == conversation.id then mkUpdatedConversation env conversation content attachments else c))
        (some (apiConfig, mkRequest apiConfig (updatedLog env conversation content attachments))) e 1
    | .ok response =>
      match env.store 1 with
      | .error e =>
        sendCatch env conversation.id (mkUpdatedConversation env conversation content attachments)
          (updatedLog env conversation content attachments)
          (conversations.map (fun c =>
            if c.id == conversation.id then mkUpdatedConversation env conversation content attachments else c))
          (some (apiConfig, mkRequest apiConfig (updatedLog env conversation content attachments))) e 2
      | .ok _ =>
        .ok { conversations := (conversations.map (fun c =>
                if c.id == conversation.id then mkUpdatedConversation env conversation content attachments else c)).map
                (fun c =>
                  if c.id == conversation.id then
                    { mkUpdatedConversation env conversation content attachments with
                      messages := updatedLog env conversation content attachments ++ [mkAssistantMessage env response]
                      updatedAt := env.now }
                  else c)
              upserts := [mkUpdatedConversation env conversation content attachments,
                { mkUpdatedConversation env conversation content attachments with
                  messages := updatedLog env conversation content attachments ++ [mkAssistantMessage env response]
                  updatedAt := env.now }]
              call := some (apiConfig, mkRequest apiConfig (updatedLog env conversation content attachments)) }

/-- Source function `handleSendMessage` of `App`, over the component state
(the conversation list, the selected id, the global `apiConfig`).  When no
conversation is selected or no global config exists, the handler returns
without doing anything. -/
def handleSendMessage (env : SendEnv) (conversations : List Conversation)
    (currentId : Option String) (apiConfig? : Option APIConfigModel)
    (content : String) (attachments : Option (List InputFile)) :
    Except String SendOutcome :=
  match getCurrentConversation conversations currentId, apiConfig? with
  | none, _ => .ok ⟨conversations, [], none⟩
  | some _, none => .ok ⟨conversations, [], none⟩
  | some conversation, some apiConfig =>
    sendMessageBody env conversations conversation apiConfig content attachments

/-- The outgoing-content rule as the specification words it (step 5 of the
send-message workflow): the typed text with each text-typed attachment
appended as the labeled block `\n\nFile: <name>\n<text>`. -/
def specOutgoingContent (content : String) (files : List InputFile) : String :=
  content ++ String.join
    ((files.filter (fun f => strStartsWith f.type "text/")).map
      (fun f => "\n\nFile: " ++ f.name ++ "\n" ++ f.text))

/-- The state a `handleNewConversation` run leaves behind. -/
structure NewConvOutcome where
  conversations : List Conversation
  currentId : Option String
  configModalOpen : Bool
  savedConversation : Option Conversation
deriving DecidableEq

/-- Source function `handleNewConversation` of `App`.  `freshId` stands for
`crypto.randomUUID()` and `now` for `Date.now()`.  Without a global config the
handler only opens the config modal.  Otherwise it builds the conversation
with title `New Conversation`, an empty log and a copy of the global config,
calls `db.saveConversation` WITHOUT awaiting it — the promise and hence
`storeOutcome` are discarded, so the result never depends on the write
succeeding — and prepends and selects the new conversation.  The attempted
write is recorded in `savedConversation`. -/
def handleNewConversation (storeOutcome : Except String Unit)
    (apiConfig? : Option APIConfigModel) (freshId : String) (now : Nat)
    (conversations : List Conversation) (currentId : Option String)
    (configModalOpen : Bool) : NewConvOutcome :=
  match apiConfig? with
  | none => ⟨conversations, currentId, true, none⟩
  | some apiConfig =>
    let newConversation : Conversation :=
      { id := freshId, title := "New Conversation", messages := []
        createdAt := now, updatedAt := now
        apiConfig := { hostname := apiConfig.hostname, apiKey := apiConfig.apiKey, model := apiConfig.model } }
    let _ := storeOutcome
    ⟨newConversation :: conversations, some freshId, configModalOpen, some newConversation⟩

/-- Source function `handleDeleteConversation` of `App`: await
`db.deleteConversation` (a Store failure rejects the handler before any state
changes), then drop the conversation from the list and clear the selection
when the deleted conversation was the selected one. -/
def handleDeleteConversation (storeOutcome : Except String Unit) (id : String)
    (conversations : List Conversation) (currentId : Option String) :
    Except String (List Conversation × Option String) :=
  match storeOutcome with
  | .error e => .error e
  | .ok _ =>
    .ok (conversations.filter (fun c => c.id != id),
      if currentId == some id then none else currentId)

/-- The state a `handleSaveConfig` run leaves behind: the queued `apiConfig`
state update, the value written to the settings slot, and the conversation
state after the possible `handleNewConversation` call. -/
structure SaveConfigOutcome where
  apiConfig : Option APIConfigModel
  savedSettings : APIConfigModel
  conversations : List Conversation
  currentId : Option String
  configModalOpen : Bool
  savedConversation : Option Conversation
deriving DecidableEq

/-- Source function `handleSaveConfig` of `App`: `saveConfig(config)` queues
the React state update and writes the settings slot; then, when no
conversation is selected, `handleNewConversation()` runs.  Inside that call
the `apiConfig` binding still holds the value of the current render —
`setApiConfig` does not reassign the local `const` — so the config check and
the snapshot both use `prevApiConfig`, the value from before the save. -/
def handleSaveConfig (config : APIConfigModel) (prevApiConfig : Option APIConfigModel)
    (storeOutcome : Except String Unit) (freshId : String) (now : Nat)
    (conversations : List Conversation) (currentId : Option String)
    (configModalOpen : Bool) : SaveConfigOutcome :=
  if currentId.isNone then
    let r := handleNewConversation storeOutcome prevApiConfig freshId now conversations currentId configModalOpen
    { apiConfig := some config, savedSettings := config
      conversations := r.conversations, currentId := r.currentId
      configModalOpen := r.configModalOpen, savedConversation := r.savedConversation }
  else
    { apiConfig := some config, savedSettings := config
      conversations := conversations, currentId := currentId
      configModalOpen := configModalOpen, savedConversation := none }

/-! Concrete sample values used by the witnesses and counterexamples. -/

/-- A global settings value. -/
def cfgA : APIConfigModel := { hostname := "hostA", apiKey := none, model := "model-A" }

/-- A different configuration, used as a pinned conversation snapshot. -/
def cfgB : APIConfigModel := { hostname := "hostB", apiKey := none, model := "model-B" }

/-- A fresh conversation pinned to `cfgB`. -/
def convEmpty : Conversation :=
  { id := "c1", title := "New Conversation", messages := [], createdAt := 0, updatedAt := 0
    apiConfig := cfgB }

/-- An environment whose Gateway and Store stubs always succeed. -/
def okEnv : SendEnv :=
  { gateway := fun _ _ => .ok "stub reply", store := fun _ => .ok (), now := 100 }

/-- An environment whose Gateway stub always fails. -/
def failEnv : SendEnv :=
  { gateway := fun _ _ => .error "boom", store := fun _ => .ok (), now := 100 }

/-- An environment whose Store stub rejects the second write (call index 1) —
the success-path save — and accepts the others. -/
def storeFailAt1Env : SendEnv :=
  { gateway := fun _ _ => .ok "stub reply"
    store := fun k => if k == 1 then .error "store write failed" else .ok (), now := 100 }

/-- An environment whose Store stub rejects every write. -/
def storeFailAt0Env : SendEnv :=
  { gateway := fun _ _ => .ok "stub reply", store := fun _ => .error "disk full", now := 100 }

/-- A text-typed attachment file. -/
def textFile : InputFile :=
  { name := "a.txt", type := "text/plain", text := "hello", base64 := "aGVsbG8=" }

/-- A conversation with eleven existing messages, for the last-ten test of the
specification. -/
def conv11 : Conversation :=
  { id := "c11", title := "t", messages :=
      [⟨"user", "m1", 1, none⟩, ⟨"assistant", "m2", 2, none⟩,
       ⟨"user", "m3", 3, none⟩, ⟨"assistant", "m4", 4, none⟩,
       ⟨"user", "m5", 5, none⟩, ⟨"assistant", "m6", 6, none⟩,
       ⟨"user", "m7", 7, none⟩, ⟨"assistant", "m8", 8, none⟩,
       ⟨"user", "m9", 9, none⟩, ⟨"assistant", "m10", 10, none⟩,
       ⟨"user", "m11", 11, none⟩]
    createdAt := 0, updatedAt := 11, apiConfig := cfgB }

/-- A 2xx OpenAI-shaped chat response whose content string is empty. -/
def emptyContentResp : HTTPResp :=
  { ok := true, statusText := "OK", bodyText := ""
    body := .obj [("choices", .arr [.obj [("message", .obj [("content", .str "")])]])] }

/-- A 2xx OpenAI-shaped chat response with a non-empty content string. -/
def okOpenAIResp : HTTPResp :=
  { ok := true, statusText := "OK", bodyText := ""
    body := .obj [("choices", .arr [.obj [("message", .obj [("content", .str "hello there")])]])] }

/-- A 2xx flat-dialect chat response. -/
def okFlatResp : HTTPResp :=
  { ok := true, statusText := "OK", bodyText := ""
    body := .obj [("message", .obj [("content", .str "flat reply")])] }

/-- A 2xx model listing in the `data` dialect whose entry has an empty name. -/
def emptyNameResp : HTTPResp :=
  { ok := true, statusText := "OK", bodyText := ""
    body := .obj [("data", .arr [.obj [("id", .str "m1"), ("name", .str "")]])] }

/-- The model listing example of the specification, `data` dialect. -/
def dataDialectResp : HTTPResp :=
  { ok := true, statusText := "OK", bodyText := ""
    body := .obj [("data", .arr [.obj [("id", .str "m1")]])] }

/-- The model listing example of the specification, `models` dialect. -/
def modelsDialectResp : HTTPResp :=
  { ok := true, statusText := "OK", bodyText := ""
    body := .obj [("models", .arr [.obj [("name", .str "n1"), ("model", .str "m1")]])] }

/-- A 2xx model listing of an unrecognized shape. -/
def unrecognizedResp : HTTPResp :=
  { ok := true, statusText := "OK", bodyText := "", body := .obj [("foo", .num 1)] }

/-!
Theorems.  One principal theorem per claim of the specification, with
counterexamples and witnesses where the claim calls for them.
-/

/-- C8: `normalize` trims surrounding whitespace, prefixes `https://` exactly
when the trimmed value lacks an explicit scheme, and strips exactly one
trailing slash; `localhost:11434` normalizes to `https://localhost:11434` and
`http://x/` to `http://x`. -/
theorem c8_normalize_hostname :
    (∀ s, normalizeHostname s = specNormalize s)
    ∧ normalizeHostname "localhost:11434" = "https://localhost:11434"
    ∧ normalizeHostname "http://x/" = "http://x" := by
  refine ⟨fun s => ?_, rfl, rfl⟩
  unfold normalizeHostname specNormalize hasScheme stripOneTrailingSlash
  cases h1 : strStartsWith (strTrim s) "http://" <;>
    cases h2 : strStartsWith (strTrim s) "https://" <;>
      simp [h1, h2]

/-- Helper: on a 2xx response whose body is neither `null` nor `undefined`,
`sendChatMessage` is the two-dialect truthiness cascade. -/
theorem sendChatMessage_ok_cascade (resp : HTTPResp) (hok : resp.ok = true)
    (h1 : resp.body ≠ .null) (h2 : resp.body ≠ .undefined) :
    sendChatMessage resp =
      (if truthy (openaiChainValue resp.body) then .ok (openaiChainValue resp.body)
       else if truthy (flatChainValue resp.body) then .ok (flatChainValue resp.body)
       else .error .unexpectedFormat) := by
  unfold sendChatMessage openaiChainValue flatChainValue
  rw [hok]
  cases hb : resp.body <;> simp_all

/-- C6 counterexample: this 2xx response carries a string at
`choices[0].message.content` — it matches the OpenAI-style shape in the
wording of the claim — yet `sendChatMessage` fails with the
unexpected-format error, because the source tests the content for JavaScript
truthiness and the empty string is falsy. -/
theorem c6_counterexample_empty_content :
    openaiShapeContent emptyContentResp.body = some ""
    ∧ sendChatMessage emptyContentResp = .error .unexpectedFormat := ⟨rfl, rfl⟩

/-- C6 amended: `sendChatMessage` fails exactly on non-2xx responses and on
2xx responses matching neither dialect, where matching a dialect means the
dialect content value is present and truthy (a present but empty content
string does not match), and where a 2xx JSON `null` body fails with a
property-access type error rather than the unexpected-format error.  A
non-2xx response fails with the status text and the response body; a 2xx
response matching a dialect resolves to that dialect content value, the
OpenAI-style dialect taking priority. -/
theorem c6_send_chat_response_contract :
    (∀ resp : HTTPResp, resp.ok = false →
      sendChatMessage resp = .error (.requestFailed resp.statusText resp.bodyText))
    ∧ (∀ resp : HTTPResp, resp.ok = true → resp.body = .null →
      sendChatMessage resp = .error (.typeError "choices"))
    ∧ (∀ resp : HTTPResp, resp.ok = true → resp.body ≠ .null → resp.body ≠ .undefined →
      truthy (openaiChainValue resp.body) = true →
      sendChatMessage resp = .ok (openaiChainValue resp.body))
    ∧ (∀ resp : HTTPResp, resp.ok = true → resp.body ≠ .null → resp.body ≠ .undefined →
      truthy (openaiChainValue resp.body) = false →
      truthy (flatChainValue resp.body) = true →
      sendChatMessage resp = .ok (flatChainValue resp.body))
    ∧ (∀ resp : HTTPResp, resp.ok = true → resp.body ≠ .null → resp.body ≠ .undefined →
      truthy (openaiChainValue resp.body) = false →
      truthy (flatChainValue resp.body) = false →
      sendChatMessage resp = .error .unexpectedFormat) := by
  refine ⟨fun resp h => ?_, fun resp hok hb => ?_, fun resp hok h1 h2 ht => ?_,
    fun resp hok h1 h2 ht hf => ?_, fun resp hok h1 h2 ht hf => ?_⟩
  · unfold sendChatMessage
    rw [h]
    rfl
  · unfold sendChatMessage
    rw [hok, hb]
    rfl
  · rw [sendChatMessage_ok_cascade resp hok h1 h2, ht]
    rfl
  · rw [sendChatMessage_ok_cascade resp hok h1 h2, ht, hf]
    rfl
  · rw [sendChatMessage_ok_cascade resp hok h1 h2, ht, hf]
    rfl

/-- Witness for the amended C6 theorem: the failure branch, the OpenAI-style
branch, the flat branch, the unexpected-format branch and the null-body
branch, each at a concrete response. -/
theorem c6_send_chat_response_contract_witness :
    sendChatMessage { ok := false, statusText := "Bad Request", bodyText := "oops", body := .null }
      = .error (.requestFailed "Bad Request" "oops")
    ∧ sendChatMessage { ok := true, statusText := "OK", bodyText := "null", body := .null }
      = .error (.typeError "choices")
    ∧ sendChatMessage okOpenAIResp = .ok (.str "hello there")
    ∧ sendChatMessage okFlatResp = .ok (.str "flat reply")
    ∧ sendChatMessage unrecognizedResp = .error .unexpectedFormat := by
  refine ⟨c6_send_chat_response_contract.1 _ rfl,
    c6_send_chat_response_contract.2.1 _ rfl rfl,
    ?_, ?_, ?_⟩
  · have h := c6_send_chat_response_contract.2.2.1 okOpenAIResp rfl
      (fun h => by cases h) (fun h => by cases h) rfl
    exact h
  · have h := c6_send_chat_response_contract.2.2.2.1 okFlatResp rfl
      (fun h => by cases h) (fun h => by cases h) rfl rfl
    exact h
  · exact c6_send_chat_response_contract.2.2.2.2 unrecognizedResp rfl
      (fun h => by cases h) (fun h => by cases h) rfl rfl

/-- C7 counterexample: on the `data` dialect entry with `id` `m1` and an
empty `name` string, the source maps the name to `m1` — `name || id` falls
back on any falsy name — while the claimed mapping `name ?? id` keeps the
empty string.  The two mapped names differ. -/
theorem c7_counterexample_empty_name :
    fetchModels emptyNameResp = .ok [⟨.str "m1", .str "m1"⟩]
    ∧ specDataDialectMap [.obj [("id", .str "m1"), ("name", .str "")]] = [⟨.str "m1", .str ""⟩]
    ∧ JValue.str "m1" ≠ JValue.str "" := by
  refine ⟨rfl, rfl, fun h => ?_⟩
  injection h with h2
  exact absurd h2 (by decide)

/-- C7 amended: for 2xx responses, a `data` array dialect maps the name
elementwise to `name || id` — the name falls back to the id when the name is
absent OR falsy, such as an empty string — and otherwise a `models` array
dialect maps the id elementwise to `model || name` with the same falsy
fallback; a 2xx JSON `null` body raises a property-access error; any other
2xx shape yields the empty sequence rather than an error.  Non-2xx responses
fail with the status text. -/
theorem c7_model_listing_contract :
    (∀ resp : HTTPResp, resp.ok = false →
      fetchModels resp = .error (.requestFailed resp.statusText))
    ∧ (∀ resp : HTTPResp, resp.ok = true → resp.body = .null →
      fetchModels resp = .error (.typeError "data"))
    ∧ (∀ (resp : HTTPResp) (l : List JValue), resp.ok = true →
      jfield resp.body "data" = .arr l →
      fetchModels resp = .ok (l.map (fun m => ⟨jfield m "id", jsOr (jfield m "name") (jfield m "id")⟩)))
    ∧ (∀ (resp : HTTPResp) (l : List JValue), resp.ok = true →
      (truthy (jfield resp.body "data") && isJArr (jfield resp.body "data")) = false →
      jfield resp.body "models" = .arr l →
      fetchModels resp = .ok (l.map (fun m => ⟨jsOr (jfield m "model") (jfield m "name"), jfield m "name"⟩)))
    ∧ (∀ resp : HTTPResp, resp.ok = true → resp.body ≠ .null → resp.body ≠ .undefined →
      (truthy (jfield resp.body "data") && isJArr (jfield resp.body "data")) = false →
      (truthy (jfield resp.body "models") && isJArr (jfield resp.body "models")) = false →
      fetchModels resp = .ok []) := by
  have hbody : ∀ resp : HTTPResp, resp.ok = true → resp.body ≠ .null → resp.body ≠ .undefined →
      fetchModels resp = .ok (fetchModelsBody resp.body) := by
    intro resp hok h1 h2
    unfold fetchModels
    rw [hok]
    cases hb : resp.body
    case null => exact absurd hb h1
    case undefined => exact absurd hb h2
    all_goals rfl
  refine ⟨fun resp h => ?_, fun resp hok hb => ?_, fun resp l hok hd => ?_,
    fun resp l hok hd hm => ?_, fun resp hok h1 h2 hd hm => ?_⟩
  · unfold fetchModels
    rw [h]
    rfl
  · unfold fetchModels
    rw [hok, hb]
    rfl
  · have h1 : resp.body ≠ .null := by
      intro h
      rw [h] at hd
      simp [jfield] at hd
    have h2 : resp.body ≠ .undefined := by
      intro h
      rw [h] at hd
      simp [jfield] at hd
    rw [hbody resp hok h1 h2]
    unfold fetchModelsBody
    rw [hd]
    rfl
  · have h1 : resp.body ≠ .null := by
      intro h
      rw [h] at hm
      simp [jfield] at hm
    have h2 : resp.body ≠ .undefined := by
      intro h
      rw [h] at hm
      simp [jfield] at hm
    rw [hbody resp hok h1 h2]
    unfold fetchModelsBody
    rw [hd, hm]
    rfl
  · rw [hbody resp hok h1 h2]
    unfold fetchModelsBody
    rw [hd, hm]
    rfl

/-- Witness for the amended C7 theorem: the three dialect examples of the
specification and the null-body branch, each at a concrete response. -/
theorem c7_model_listing_contract_witness :
    fetchModels dataDialectResp = .ok [⟨.str "m1", .str "m1"⟩]
    ∧ fetchModels modelsDialectResp = .ok [⟨.str "m1", .str "n1"⟩]
    ∧ fetchModels unrecognizedResp = .ok []
    ∧ fetchModels { ok := true, statusText := "OK", bodyText := "null", body := .null }
      = .error (.typeError "data")
    ∧ fetchModels { ok := false, statusText := "Not Found", bodyText := "", body := .null }
      = .error (.requestFailed "Not Found") := by
  refine ⟨?_, ?_, ?_, c7_model_listing_contract.2.1 _ rfl rfl,
    c7_model_listing_contract.1 _ rfl⟩
  · have h := c7_model_listing_contract.2.2.1 dataDialectResp
      [.obj [("id", .str "m1")]] rfl rfl
    exact h
  · have h := c7_model_listing_contract.2.2.2.1 modelsDialectResp
      [.obj [("name", .str "n1"), ("model", .str "m1")]] rfl rfl rfl
    exact h
  · exact c7_model_listing_contract.2.2.2.2 unrecognizedResp rfl
      (fun h => by cases h) (fun h => by cases h) rfl rfl

/-- Helper: when the selected conversation is found and a global config
exists, `handleSendMessage` runs its body. -/
theorem handleSendMessage_found (env : SendEnv) (conversations : List Conversation)
    (currentId : Option String) (g : APIConfigModel) (content : String)
    (attachments : Option (List InputFile)) (conv : Conversation)
    (hfind : getCurrentConversation conversations currentId = some conv) :
    handleSendMessage env conversations currentId (some g) content attachments =
      sendMessageBody env conversations conv g content attachments := by
  unfold handleSendMessage
  rw [hfind]

/-- Helper: replacing a conversation by id twice is replacing it once with
the second record, when the first replacement keeps the id. -/
theorem map_replace_twice (l : List Conversation) (cid : String) (a b : Conversation)
    (ha : a.id = cid) :
    (l.map (fun c => if c.id == cid then a else c)).map (fun c => if c.id == cid then b else c)
      = l.map (fun c => if c.id == cid then b else c) := by
  rw [List.map_map]
  congr 1
  funext c
  cases hc : c.id == cid <;> simp [Function.comp, hc, ha]

/-- Helper: the gateway-failure path of the send body, with both surrounding
Store writes succeeding. -/
theorem sendMessageBody_gateway_error (env : SendEnv) (conversations : List Conversation)
    (conv : Conversation) (g : APIConfigModel) (content : String)
    (attachments : Option (List InputFile)) (e : String)
    (h0 : env.store 0 = .ok ()) (h1 : env.store 1 = .ok ())
    (hg : env.gateway g (mkRequest g (updatedLog env conv content attachments)) = .error e) :
    sendMessageBody env conversations conv g content attachments =
      .ok { conversations := (conversations.map (fun c =>
              if c.id == conv.id then mkUpdatedConversation env conv content attachments else c)).map
              (fun c =>
                if c.id == conv.id then
                  { mkUpdatedConversation env conv content attachments with
                    messages := updatedLog env conv content attachments ++ [mkErrorMessage env e]
                    updatedAt := env.now }
                else c)
            upserts := [mkUpdatedConversation env conv content attachments,
              { mkUpdatedConversation env conv content attachments with
                messages := updatedLog env conv content attachments ++ [mkErrorMessage env e]
                updatedAt := env.now }]
            call := some (g, mkRequest g (updatedLog env conv content attachments)) } := by
  unfold sendMessageBody sendCatch
  rw [h0, hg, h1]

/-- Helper: the success path of the send body, with both Store writes
succeeding. -/
theorem sendMessageBody_gateway_ok (env : SendEnv) (conversations : List Conversation)
    (conv : Conversation) (g : APIConfigModel) (content : String)
    (attachments : Option (List InputFile)) (r : String)
    (h0 : env.store 0 = .ok ()) (h1 : env.store 1 = .ok ())
    (hg : env.gateway g (mkRequest g (updatedLog env conv content attachments)) = .ok r) :
    sendMessageBody env conversations conv g content attachments =
      .ok { conversations := (conversations.map (fun c =>
              if c.id == conv.id then mkUpdatedConversation env conv content attachments else c)).map
              (fun c =>
                if c.id == conv.id then
                  { mkUpdatedConversation env conv content attachments with
                    messages := updatedLog env conv content attachments ++ [mkAssistantMessage env r]
                    updatedAt := env.now }
                else c)
            upserts := [mkUpdatedConversation env conv content attachments,
              { mkUpdatedConversation env conv content attachments with
                messages := updatedLog env conv content attachments ++ [mkAssistantMessage env r]
                updatedAt := env.now }]
            call := some (g, mkRequest g (updatedLog env conv content attachments)) } := by
  unfold sendMessageBody
  rw [h0, hg, h1]

/-- Helper: the last ten elements, as the source slices them, are the
reversed ten-element prefix of the reversed list. -/
theorem sliceLast_eq_reverse_take (n : Nat) (l : List α) :
    sliceLast n l = (l.reverse.take n).reverse :=
  List.rtake_eq_reverse_take_reverse l n

/-- C2 counterexample: the conversation is pinned to `model-B`, the global
settings carry `model-A`, and the Gateway is invoked with config and model
`model-A` — the pinned configuration is ignored by the send. -/
theorem c2_counterexample_pinned_config_ignored :
    (∃ out, handleSendMessage okEnv [convEmpty] (some "c1") (some cfgA) "hi" none = .ok out
      ∧ out.call.map (fun p => (p.1.model, p.2.model)) = some ("model-A", "model-A"))
    ∧ convEmpty.apiConfig.model = "model-B"
    ∧ ("model-A" : String) ≠ "model-B" := by
  refine ⟨⟨_, rfl, rfl⟩, rfl, by decide⟩

/-- C2 amended: every send on a found conversation invokes the Gateway with
the current global config and its model, whatever configuration the
conversation has pinned; consequently later edits to the global settings DO
change which configuration an existing conversation sends with. -/
theorem c2_amended_send_uses_global_config (env : SendEnv)
    (conversations : List Conversation) (currentId : Option String)
    (g : APIConfigModel) (content : String) (attachments : Option (List InputFile))
    (conv : Conversation)
    (hfind : getCurrentConversation conversations currentId = some conv)
    (hstore : ∀ k, env.store k = .ok ()) :
    ∃ out req, handleSendMessage env conversations currentId (some g) content attachments = .ok out
      ∧ out.call = some (g, req) ∧ req.model = g.model := by
  rw [handleSendMessage_found env conversations currentId g content attachments conv hfind]
  cases hg : env.gateway g (mkRequest g (updatedLog env conv content attachments)) with
  | error e =>
    rw [sendMessageBody_gateway_error env conversations conv g content attachments e
      (hstore 0) (hstore 1) hg]
    exact ⟨_, _, rfl, rfl, rfl⟩
  | ok r =>
    rw [sendMessageBody_gateway_ok env conversations conv g content attachments r
      (hstore 0) (hstore 1) hg]
    exact ⟨_, _, rfl, rfl, rfl⟩

/-- Witness for the amended C2 theorem, at a conversation pinned to `cfgB`
and global settings `cfgA`. -/
theorem c2_amended_send_uses_global_config_witness :
    getCurrentConversation [convEmpty] (some "c1") = some convEmpty ∧
    (∃ out req, handleSendMessage okEnv [convEmpty] (some "c1") (some cfgA) "hi" none = .ok out
      ∧ out.call = some (cfgA, req) ∧ req.model = cfgA.model) :=
  ⟨rfl, c2_amended_send_uses_global_config okEnv [convEmpty] (some "c1") cfgA "hi" none
    convEmpty rfl (fun _ => rfl)⟩

/-- C3: the history sent upstream is the updated message log — the previous
log with the new user message appended — projected to role and content only
and truncated to the last ten entries in oldest-first order. -/
theorem c3_history_is_last_ten_role_content (env : SendEnv)
    (conversations : List Conversation) (currentId : Option String)
    (g : APIConfigModel) (content : String) (attachments : Option (List InputFile))
    (conv : Conversation)
    (hfind : getCurrentConversation conversations currentId = some conv)
    (hstore : ∀ k, env.store k = .ok ()) :
    ∃ out req userMsg,
      handleSendMessage env conversations currentId (some g) content attachments = .ok out
      ∧ out.call = some (g, req)
      ∧ userMsg = mkUserMessage env content attachments
      ∧ userMsg.role = "user" ∧ userMsg.content = content
      ∧ req.messages =
          (((conv.messages ++ [userMsg]).map (fun m => ChatMessage.mk m.role m.content)).reverse.take 10).reverse := by
  rw [handleSendMessage_found env conversations currentId g content attachments conv hfind]
  cases hg : env.gateway g (mkRequest g (updatedLog env conv content attachments)) with
  | error e =>
    rw [sendMessageBody_gateway_error env conversations conv g content attachments e
      (hstore 0) (hstore 1) hg]
    exact ⟨_, _, _, rfl, rfl, rfl, rfl, rfl, sliceLast_eq_reverse_take 10 _⟩
  | ok r =>
    rw [sendMessageBody_gateway_ok env conversations conv g content attachments r
      (hstore 0) (hstore 1) hg]
    exact ⟨_, _, _, rfl, rfl, rfl, rfl, rfl, sliceLast_eq_reverse_take 10 _⟩

/-- Witness for C3: a conversation with eleven existing messages and a
successful Gateway stub; the outgoing request carries exactly the last ten of
the twelve role/content pairs, oldest first. -/
theorem c3_history_is_last_ten_role_content_witness :
    getCurrentConversation [conv11] (some "c11") = some conv11
    ∧ (∃ out req userMsg,
        handleSendMessage okEnv [conv11] (some "c11") (some cfgA) "m12" none = .ok out
        ∧ out.call = some (cfgA, req)
        ∧ userMsg = mkUserMessage okEnv "m12" none
        ∧ userMsg.role = "user" ∧ userMsg.content = "m12"
        ∧ req.messages =
            (((conv11.messages ++ [userMsg]).map (fun m => ChatMessage.mk m.role m.content)).reverse.take 10).reverse)
    ∧ (handleSendMessage okEnv [conv11] (some "c11") (some cfgA) "m12" none).map
        (fun o => o.call.map (fun p => p.2.messages)) =
      .ok (some [⟨"user", "m3"⟩, ⟨"assistant", "m4"⟩, ⟨"user", "m5"⟩, ⟨"assistant", "m6"⟩,
        ⟨"user", "m7"⟩, ⟨"assistant", "m8"⟩, ⟨"user", "m9"⟩, ⟨"assistant", "m10"⟩,
        ⟨"user", "m11"⟩, ⟨"user", "m12"⟩]) :=
  ⟨rfl, c3_history_is_last_ten_role_content okEnv [conv11] (some "c11") cfgA "m12" none
    conv11 rfl (fun _ => rfl), rfl⟩

/-- C4: when the Gateway call fails and the Store accepts every write, the
send workflow resolves normally (no rejection reaches the caller), the Store
is written exactly twice, and the settled conversation log is the old log
plus the new user message plus exactly one new assistant message whose
content is `Error: ` followed by the failure message; the settled
conversation is republished in place. -/
theorem c4_gateway_failure_absorbed (env : SendEnv)
    (conversations : List Conversation) (currentId : Option String)
    (g : APIConfigModel) (content : String) (attachments : Option (List InputFile))
    (conv : Conversation) (e : String)
    (hfind : getCurrentConversation conversations currentId = some conv)
    (hg : ∀ cfg r, env.gateway cfg r = .error e)
    (hstore : ∀ k, env.store k = .ok ()) :
    ∃ out finalConv,
      handleSendMessage env conversations currentId (some g) content attachments = .ok out
      ∧ out.upserts.length = 2
      ∧ out.upserts.getLast? = some finalConv
      ∧ finalConv.messages =
          conv.messages ++ [mkUserMessage env content attachments, mkErrorMessage env e]
      ∧ (mkUserMessage env content attachments).role = "user"
      ∧ (mkErrorMessage env e).role = "assistant"
      ∧ (mkErrorMessage env e).content = "Error: " ++ e
      ∧ out.conversations = conversations.map (fun c => if c.id == conv.id then finalConv else c) := by
  rw [handleSendMessage_found env conversations currentId g content attachments conv hfind,
    sendMessageBody_gateway_error env conversations conv g content attachments e
      (hstore 0) (hstore 1) (hg _ _)]
  refine ⟨_, _, rfl, rfl, rfl, ?_, rfl, rfl, rfl, ?_⟩
  · show updatedLog env conv content attachments ++ [mkErrorMessage env e] =
      conv.messages ++ [mkUserMessage env content attachments, mkErrorMessage env e]
    simp [updatedLog]
  · exact map_replace_twice conversations conv.id
      (mkUpdatedConversation env conv content attachments) _ rfl

/-- Witness for C4: a failing Gateway stub on a fresh conversation; the run
resolves, two records are written, and the settled log is the user message
followed by one `Error: boom` assistant message. -/
theorem c4_gateway_failure_absorbed_witness :
    getCurrentConversation [convEmpty] (some "c1") = some convEmpty
    ∧ (∃ out finalConv,
        handleSendMessage failEnv [convEmpty] (some "c1") (some cfgA) "hi" none = .ok out
        ∧ out.upserts.length = 2
        ∧ out.upserts.getLast? = some finalConv
        ∧ finalConv.messages =
            convEmpty.messages ++ [mkUserMessage failEnv "hi" none, mkErrorMessage failEnv "boom"]
        ∧ (mkUserMessage failEnv "hi" none).role = "user"
        ∧ (mkErrorMessage failEnv "boom").role = "assistant"
        ∧ (mkErrorMessage failEnv "boom").content = "Error: " ++ "boom"
        ∧ out.conversations = [convEmpty].map (fun c => if c.id == convEmpty.id then finalConv else c))
    ∧ (handleSendMessage failEnv [convEmpty] (some "c1") (some cfgA) "hi" none).map
        (fun o => (o.upserts.length, o.upserts.map (fun c => c.messages.map (fun m => (m.role, m.content)))))
      = .ok (2, [[("user", "hi")], [("user", "hi"), ("assistant", "Error: boom")]]) :=
  ⟨rfl, c4_gateway_failure_absorbed failEnv [convEmpty] (some "c1") cfgA "hi" none
    convEmpty "boom" rfl (fun _ _ => rfl) (fun _ => rfl), rfl⟩

/-- C5 counterexample: the Store stub rejects the success-path write (call
index 1), yet the send workflow resolves normally and converts the Store
failure into a conversation message `Error: store write failed` — the
Orchestrator DOES catch and convert this Store failure instead of letting it
propagate to the caller. -/
theorem c5_counterexample_store_failure_converted :
    storeFailAt1Env.store 1 = .error "store write failed"
    ∧ (handleSendMessage storeFailAt1Env [convEmpty] (some "c1") (some cfgA) "hi" none).map
        (fun o => o.upserts.map (fun c => c.messages.map (fun m => m.content)))
      = .ok [["hi"], ["hi", "Error: store write failed"]] := ⟨rfl, rfl⟩

/-- C5 amended: Store failures propagate to the caller for the
delete-conversation workflow, for the optimistic send-message save and for
the error-path send-message save; but the success-path send-message save sits
inside the try block, so its failure is caught and converted into an
`Error: ` assistant message, and the new-conversation save is not awaited at
all, so the workflow result never depends on its outcome. -/
theorem c5_store_failure_propagation :
    (∀ (env : SendEnv) (conversations : List Conversation) (currentId : Option String)
        (g : APIConfigModel) (content : String) (attachments : Option (List InputFile))
        (conv : Conversation) (e : String),
      getCurrentConversation conversations currentId = some conv →
      env.store 0 = .error e →
      handleSendMessage env conversations currentId (some g) content attachments = .error e)
    ∧ (∀ (env : SendEnv) (conversations : List Conversation) (currentId : Option String)
        (g : APIConfigModel) (content : String) (attachments : Option (List InputFile))
        (conv : Conversation) (ge e : String),
      getCurrentConversation conversations currentId = some conv →
      env.store 0 = .ok () →
      (∀ cfg r, env.gateway cfg r = .error ge) →
      env.store 1 = .error e →
      handleSendMessage env conversations currentId (some g) content attachments = .error e)
    ∧ (∀ (env : SendEnv) (conversations : List Conversation) (currentId : Option String)
        (g : APIConfigModel) (content : String) (attachments : Option (List InputFile))
        (conv : Conversation) (r e : String),
      getCurrentConversation conversations currentId = some conv →
      env.store 0 = .ok () →
      (∀ cfg rq, env.gateway cfg rq = .ok r) →
      env.store 1 = .error e →
      env.store 2 = .ok () →
      ∃ out, handleSendMessage env conversations currentId (some g) content attachments = .ok out
        ∧ out.upserts.getLast?.map (fun c => c.messages.getLast?.map (fun m => m.content))
          = some (some ("Error: " ++ e)))
    ∧ (∀ (s₁ s₂ : Except String Unit) (cfg? : Option APIConfigModel) (freshId : String)
        (now : Nat) (conversations : List Conversation) (currentId : Option String)
        (modalOpen : Bool),
      handleNewConversation s₁ cfg? freshId now conversations currentId modalOpen
        = handleNewConversation s₂ cfg? freshId now conversations currentId modalOpen)
    ∧ (∀ (e id : String) (conversations : List Conversation) (currentId : Option String),
      handleDeleteConversation (.error e) id conversations currentId = .error e) := by
  refine ⟨?_, ?_, ?_, ?_, ?_⟩
  · intro env conversations currentId g content attachments conv e hfind h0
    rw [handleSendMessage_found env conversations currentId g content attachments conv hfind]
    unfold sendMessageBody
    rw [h0]
  · intro env conversations currentId g content attachments conv ge e hfind h0 hg h1
    rw [handleSendMessage_found env conversations currentId g content attachments conv hfind]
    unfold sendMessageBody sendCatch
    rw [h0, hg, h1]
  · intro env conversations currentId g content attachments conv r e hfind h0 hg h1 h2
    rw [handleSendMessage_found env conversations currentId g content attachments conv hfind]
    unfold sendMessageBody sendCatch
    rw [h0, hg, h1, h2]
    refine ⟨_, rfl, ?_⟩
    show some ((updatedLog env conv content attachments ++ [mkErrorMessage env e]).getLast?.map
      (fun m => m.content)) = some (some ("Error: " ++ e))
    rw [List.getLast?_concat]
    rfl
  · intro s₁ s₂ cfg? freshId now conversations currentId modalOpen
    cases cfg? <;> rfl
  · intro e id conversations currentId
    rfl

/-- Witness for the amended C5 theorem: a Store stub that rejects every
write makes the optimistic send save and the delete reject with the same
error, while the new-conversation result ignores the write outcome. -/
theorem c5_store_failure_propagation_witness :
    getCurrentConversation [convEmpty] (some "c1") = some convEmpty
    ∧ storeFailAt0Env.store 0 = .error "disk full"
    ∧ handleSendMessage storeFailAt0Env [convEmpty] (some "c1") (some cfgA) "hi" none
      = .error "disk full"
    ∧ handleDeleteConversation (.error "disk full") "c1" [convEmpty] (some "c1")
      = .error "disk full"
    ∧ handleNewConversation (.error "disk full") (some cfgA) "id9" 7 [] none false
      = handleNewConversation (.ok ()) (some cfgA) "id9" 7 [] none false :=
  ⟨rfl, rfl,
    c5_store_failure_propagation.1 storeFailAt0Env [convEmpty] (some "c1") cfgA "hi" none
      convEmpty "disk full" rfl rfl,
    c5_store_failure_propagation.2.2.2.2 "disk full" "c1" [convEmpty] (some "c1"),
    c5_store_failure_propagation.2.2.2.1 (.error "disk full") (.ok ()) (some cfgA) "id9" 7 [] none false⟩

/-- C1: the source computes the labeled text-attachment blocks
(`messageContent`) but never uses them — at this send with one text-typed
attachment, the outgoing request carries the raw typed text only, not the
content the specification prescribes.  The attachment itself is still stored
on the user message in base64. -/
theorem c1_text_attachment_not_inlined :
    (∃ out, handleSendMessage okEnv [convEmpty] (some "c1") (some cfgA) "hi" (some [textFile]) = .ok out
      ∧ out.call.map (fun p => p.2.messages.map (fun m => m.content)) = some ["hi"]
      ∧ out.upserts.map (fun c => c.messages.map (fun m => m.attachments)) =
          [[some [⟨"a.txt", "text/plain", "aGVsbG8="⟩]],
           [some [⟨"a.txt", "text/plain", "aGVsbG8="⟩], none]])
    ∧ mkMessageContent "hi" (some [textFile]) = "hi\n\nFile: a.txt\nhello"
    ∧ specOutgoingContent "hi" [textFile] = "hi\n\nFile: a.txt\nhello"
    ∧ ("hi" : String) ≠ "hi\n\nFile: a.txt\nhello" := by
  refine ⟨⟨_, rfl, rfl, rfl⟩, rfl, rfl, by decide⟩

/-- Helper: the title expression of the source equals the truncation rule as
the specification words it — the content itself when it has at most fifty
characters, else the first fifty characters followed by the ellipsis
marker. -/
theorem title_rule (conversation : Conversation) (content : String) :
    (if conversation.messages.length == 0 then
      strTake content 50 ++ (if strLength content > 50 then "..." else "")
    else conversation.title)
    = (if conversation.messages = [] then
        (if strLength content ≤ 50 then content else strTake content 50 ++ "...")
      else conversation.title) := by
  cases hm : conversation.messages with
  | nil =>
    simp only [List.length_nil, Nat.zero_eq]
    by_cases h2 : strLength content ≤ 50
    · have h2l : content.data.length ≤ 50 := h2
      have ht : strTake content 50 = content := by
        unfold strTake
        rw [List.take_of_length_le h2l]
      have hgt : ¬ strLength content > 50 := by omega
      simp [ht, hgt, h2]
    · have hgt : strLength content > 50 := by omega
      simp [h2, hgt]
  | cons a t => simp

/-- C9: the first send into a conversation derives the title from the sent
content — the content itself when at most fifty characters, else the first
fifty characters plus the ellipsis marker — and every later send leaves the
title unchanged; every record written during the send carries that title. -/
theorem c9_title_from_first_message (env : SendEnv)
    (conversations : List Conversation) (currentId : Option String)
    (g : APIConfigModel) (content : String) (attachments : Option (List InputFile))
    (conv : Conversation)
    (hfind : getCurrentConversation conversations currentId = some conv)
    (hstore : ∀ k, env.store k = .ok ()) :
    ∃ out, handleSendMessage env conversations currentId (some g) content attachments = .ok out
      ∧ out.upserts.length = 2
      ∧ ∀ c ∈ out.upserts, c.title =
          (if conv.messages = [] then
            (if strLength content ≤ 50 then content else strTake content 50 ++ "...")
          else conv.title) := by
  rw [handleSendMessage_found env conversations currentId g content attachments conv hfind]
  have htitle := title_rule conv content
  cases hg : env.gateway g (mkRequest g (updatedLog env conv content attachments)) with
  | error e =>
    rw [sendMessageBody_gateway_error env conversations conv g content attachments e
      (hstore 0) (hstore 1) hg]
    refine ⟨_, rfl, rfl, ?_⟩
    intro c hc
    rcases List.mem_cons.mp hc with rfl | hc2
    · exact htitle
    · rcases List.mem_singleton.mp hc2 with rfl
      exact htitle
  | ok r =>
    rw [sendMessageBody_gateway_ok env conversations conv g content attachments r
      (hstore 0) (hstore 1) hg]
    refine ⟨_, rfl, rfl, ?_⟩
    intro c hc
    rcases List.mem_cons.mp hc with rfl | hc2
    · exact htitle
    · rcases List.mem_singleton.mp hc2 with rfl
      exact htitle

/-- Witness for C9: a first message `Hello world` (11 characters) keeps the
full content as the title of both written records; a first message of sixty
letters is truncated to the first fifty plus the ellipsis marker; a send
into a conversation that already has messages leaves its title `t`
unchanged. -/
theorem c9_title_from_first_message_witness :
    getCurrentConversation [convEmpty] (some "c1") = some convEmpty
    ∧ (∃ out, handleSendMessage okEnv [convEmpty] (some "c1") (some cfgA) "Hello world" none = .ok out
        ∧ out.upserts.length = 2
        ∧ ∀ c ∈ out.upserts, c.title =
            (if convEmpty.messages = [] then
              (if strLength "Hello world" ≤ 50 then "Hello world" else strTake "Hello world" 50 ++ "...")
            else convEmpty.title))
    ∧ (handleSendMessage okEnv [convEmpty] (some "c1") (some cfgA) "Hello world" none).map
        (fun o => o.upserts.map (fun c => c.title)) = .ok ["Hello world", "Hello world"]
    ∧ (handleSendMessage okEnv [convEmpty] (some "c1") (some cfgA) "aaaaaaaaaaaaaaaaaaaaaaaaaaaaaaaaaaaaaaaaaaaaaaaaaaaaaaaaaaaa" none).map
        (fun o => o.upserts.map (fun c => c.title))
      = .ok ["aaaaaaaaaaaaaaaaaaaaaaaaaaaaaaaaaaaaaaaaaaaaaaaaaa...", "aaaaaaaaaaaaaaaaaaaaaaaaaaaaaaaaaaaaaaaaaaaaaaaaaa..."]
    ∧ (handleSendMessage okEnv [conv11] (some "c11") (some cfgA) "next" none).map
        (fun o => o.upserts.map (fun c => c.title)) = .ok ["t", "t"] :=
  ⟨rfl,
    c9_title_from_first_message okEnv [convEmpty] (some "c1") cfgA "Hello world" none
      convEmpty rfl (fun _ => rfl),
    rfl, rfl, rfl⟩

/-- C10: at the failing input — no configuration saved before, no
conversation selected — saving a valid configuration re-opens the
configuration modal and neither creates nor persists nor selects any
conversation, because the `handleNewConversation` call still observes the
pre-save `apiConfig` binding; and when a previous configuration existed, the
conversation that save-config creates is pinned to that OLD configuration,
not to the one just saved. -/
theorem c10_save_config_reads_stale_config :
    handleSaveConfig cfgA none (.ok ()) "fresh-id" 100 [] none false =
      { apiConfig := some cfgA, savedSettings := cfgA, conversations := []
        currentId := none, configModalOpen := true, savedConversation := none }
    ∧ (handleSaveConfig cfgA (some cfgB) (.ok ()) "fresh-id" 100 [] none false).conversations.map
        (fun c => c.apiConfig) = [cfgB]
    ∧ (handleSaveConfig cfgA (some cfgB) (.ok ()) "fresh-id" 100 [] (some "c1") false).conversations = []
      := ⟨rfl, rfl, rfl⟩

end ChatTest
